import Mathlib

/-!
# `examples/soong_config_variables/plus_os/main.cpp`

The program prints, for each of fifteen preprocessor symbols, whether the
symbol was defined when the translation unit was compiled, and returns 0.

## Embedding

* A build configuration is a partial map from symbol names to replacement
  text (`Config`), the set of `-D` definitions in force when `main.cpp` is
  preprocessed.  `#ifdef N` reads it through `Config.defined`.
* `std::cout` is the text written so far; `<< s` appends `s`, and
  `<< std::endl` appends a newline (the flush is not observable here).
* `PRINT_SET(x)` / `PRINT_UNSET(x)` are the two function-like macros of the
  file.  Their body uses `#x`, the stringification of the argument's
  spelling, which the preprocessor does not macro-expand; so the embedding
  receives the spelling of the argument and never looks it up in the
  configuration.
* `main` is the straight-line sequence of the fifteen `#ifdef` blocks,
  followed by `return 0`.

`main` reads the configuration where the source names the fifteen symbols,
in the `#ifdef` directives.  The preprocessor also replaces the identifier
tokens of the rest of the translation unit when the configuration defines
them: `std`, `cout` and `endl` when a `PRINT_SET`/`PRINT_UNSET` body is
rescanned, `int`, `main` and `return` in the function, and the text of
`<iostream>`.  `build` is the program as built under a configuration with
that replacement taken into account: under a configuration that defines none
of these identifiers it is `main` writing to standard output, with `cout`
defined as `cerr` it is `main` writing to standard error, and other
redefinitions of these identifiers are not followed (`none`).
-/

namespace PlusOs

/-! ## Data model -/

/-- Build configuration: the macro definitions in force, as a partial map
from a symbol name to its replacement text. -/
abbrev Config := String → Option String

/-- Directive `#ifdef n`: whether `n` is defined, whatever its replacement
text is. -/
def Config.defined (c : Config) (n : String) : Bool := (c n).isSome

/-- Result of running the program: what was written to standard output and
the value returned from `main`. -/
structure Run where
  /-- Text written to `std::cout`. -/
  stdout : String
  /-- Value returned by `main`. -/
  exitCode : Int

/-! ## The program -/

/-- Stream manipulator `std::endl`: writes a newline to the stream. -/
def endl (cout : String) : String := cout ++ "\n"

/-- Macro `PRINT_SET(x)`: `std::cout << #x << " set" << std::endl;` where `x`
is the spelling of the macro argument. -/
def PRINT_SET (x : String) (cout : String) : String := endl (cout ++ x ++ " set")

/-- Macro `PRINT_UNSET(x)`: `std::cout << #x << " unset" << std::endl;` where
`x` is the spelling of the macro argument. -/
def PRINT_UNSET (x : String) (cout : String) : String := endl (cout ++ x ++ " unset")

/-- Function `main` of `main.cpp`: fifteen `#ifdef`/`#else`/`#endif` blocks in
source order, then `return 0`. -/
def main (c : Config) : Run :=
  let cout : String := ""
  let cout := if c.defined "VALUE1"
    then PRINT_SET "VALUE1" cout
    else PRINT_UNSET "VALUE1" cout
  let cout := if c.defined "VALUE1_PLUS_ANDROID"
    then PRINT_SET "VALUE1_PLUS_ANDROID" cout
    else PRINT_UNSET "VALUE1_PLUS_ANDROID" cout
  let cout := if c.defined "VALUE1_PLUS_HOST"
    then PRINT_SET "VALUE1_PLUS_HOST" cout
    else PRINT_UNSET "VALUE1_PLUS_HOST" cout
  let cout := if c.defined "VALUE2"
    then PRINT_SET "VALUE2" cout
    else PRINT_UNSET "VALUE2" cout
  let cout := if c.defined "VALUE2_PLUS_ANDROID"
    then PRINT_SET "VALUE2_PLUS_ANDROID" cout
    else PRINT_UNSET "VALUE2_PLUS_ANDROID" cout
  let cout := if c.defined "VALUE2_PLUS_HOST"
    then PRINT_SET "VALUE2_PLUS_HOST" cout
    else PRINT_UNSET "VALUE2_PLUS_HOST" cout
  let cout := if c.defined "DEFAULT"
    then PRINT_SET "DEFAULT" cout
    else PRINT_UNSET "DEFAULT" cout
  let cout := if c.defined "DEFAULT_PLUS_ANDROID"
    then PRINT_SET "DEFAULT_PLUS_ANDROID" cout
    else PRINT_UNSET "DEFAULT_PLUS_ANDROID" cout
  let cout := if c.defined "DEFAULT_PLUS_HOST"
    then PRINT_SET "DEFAULT_PLUS_HOST" cout
    else PRINT_UNSET "DEFAULT_PLUS_HOST" cout
  let cout := if c.defined "BOOL_VAR"
    then PRINT_SET "BOOL_VAR" cout
    else PRINT_UNSET "BOOL_VAR" cout
  let cout := if c.defined "BOOL_VAR_PLUS_ANDROID"
    then PRINT_SET "BOOL_VAR_PLUS_ANDROID" cout
    else PRINT_UNSET "BOOL_VAR_PLUS_ANDROID" cout
  let cout := if c.defined "BOOL_VAR_PLUS_HOST"
    then PRINT_SET "BOOL_VAR_PLUS_HOST" cout
    else PRINT_UNSET "BOOL_VAR_PLUS_HOST" cout
  let cout := if c.defined "BOOL_VAR_DEFAULT"
    then PRINT_SET "BOOL_VAR_DEFAULT" cout
    else PRINT_UNSET "BOOL_VAR_DEFAULT" cout
  let cout := if c.defined "BOOL_VAR_DEFAULT_PLUS_ANDROID"
    then PRINT_SET "BOOL_VAR_DEFAULT_PLUS_ANDROID" cout
    else PRINT_UNSET "BOOL_VAR_DEFAULT_PLUS_ANDROID" cout
  let cout := if c.defined "BOOL_VAR_DEFAULT_PLUS_HOST"
    then PRINT_SET "BOOL_VAR_DEFAULT_PLUS_HOST" cout
    else PRINT_UNSET "BOOL_VAR_DEFAULT_PLUS_HOST" cout
  { stdout := cout, exitCode := 0 }

/-! ## Vocabulary of the specification -/

/-- The fifteen checked symbols, in the fixed order of the specification. -/
def symbols : List String :=
  [ "VALUE1", "VALUE1_PLUS_ANDROID", "VALUE1_PLUS_HOST",
    "VALUE2", "VALUE2_PLUS_ANDROID", "VALUE2_PLUS_HOST",
    "DEFAULT", "DEFAULT_PLUS_ANDROID", "DEFAULT_PLUS_HOST",
    "BOOL_VAR", "BOOL_VAR_PLUS_ANDROID", "BOOL_VAR_PLUS_HOST",
    "BOOL_VAR_DEFAULT", "BOOL_VAR_DEFAULT_PLUS_ANDROID", "BOOL_VAR_DEFAULT_PLUS_HOST" ]

/-- The line the specification expects for symbol `n`: `"n set"` when `n` is
defined and `"n unset"` otherwise (without the terminating newline). -/
def report (c : Config) (n : String) : String :=
  if c.defined n then n ++ " set" else n ++ " unset"

/-- Splits a character sequence into its lines: a line ends at each newline
character, and a non-empty unterminated tail is a last line.  `cur` is the
part of the current line already read. -/
def linesAux (cur : List Char) : List Char → List (List Char)
  | [] => if cur = [] then [] else [cur]
  | ch :: rest =>
    if ch = '\n' then cur :: linesAux [] rest else linesAux (cur ++ [ch]) rest

/-- The lines of a text, without their newline terminators. -/
def lines (text : String) : List String := (linesAux [] text.data).map String.mk

/-- Text made of the given lines, each followed by a newline. -/
def unlines (ls : List String) : String := String.join (ls.map (· ++ "\n"))

/-- The program as a function from a configuration to its list of output
lines. -/
def outputLines (c : Config) : List String := lines (main c).stdout

/-- Configuration that defines exactly the symbols of `ns`, each with an
empty replacement text (as `-DN=` does). -/
def configOf (ns : List String) : Config := fun n => if n ∈ ns then some "" else none

/-- The defined symbols among the fifteen, in the fixed order. -/
def definedSymbols (c : Config) : List String := symbols.filter c.defined

/-- Reads the defined symbols back from an output text: a symbol is defined
when its `set` line is one of the lines of the text. -/
def recover (text : String) : List String :=
  symbols.filter (fun n => decide ((n ++ " set") ∈ lines text))

/-- Configuration that defines exactly the symbols of the finite set `S`,
each with an empty replacement text. -/
def configOfSet (S : Finset String) : Config := fun n => if n ∈ S then some "" else none

/-- The thirty lines the program can print: `"N set"` and `"N unset"` for
each of the fifteen symbols. -/
def possibleLines : List String :=
  symbols.map (· ++ " set") ++ symbols.map (· ++ " unset")

/-! ## Macro replacement of the other tokens of the translation unit -/

/-- What building and running the program gives: the text on standard
output, the text on standard error, and the exit code. -/
structure Outcome where
  /-- Text written to standard output. -/
  stdout : String
  /-- Text written to standard error. -/
  stderr : String
  /-- Exit code of the process. -/
  exitCode : Int

/-- The standard streams a statement of `main` can end up writing to. -/
inductive Stream where
  /-- Standard output, the object `std::cout`. -/
  | out
  /-- Standard error, the object `std::cerr`. -/
  | err

/-- Identifier tokens of `main.cpp` outside the `#ifdef` blocks that macro
replacement reaches, `cout` apart: the two macro names the file defines
(lines 18-19), `std` and `endl` in their bodies, and `int`, `main`, `return`
in the function (lines 21 and 112).  The macro parameter `x` is not one of
them: in the bodies it only occurs as `#x`. -/
def ownTokens : List String :=
  ["PRINT_SET", "PRINT_UNSET", "std", "endl", "int", "main", "return"]

/-- The identifiers that occur in the translation unit outside the fifteen
`#ifdef` blocks: those of `main.cpp` itself and those of the header
`<iostream>`.  The text of the header is not part of the repository, so its
identifiers are the parameter `iostream`. -/
def unitIdentifiers (iostream : List String) : List String :=
  ownTokens ++ "cout" :: iostream

/-- The stream that `std::cout` in the bodies of `PRINT_SET` and `PRINT_UNSET`
denotes once the body has been rescanned for macros: `std::cout` itself when
`cout` is not defined, `std::cerr` when `cout` is defined as `cerr` (and
`cerr` is not itself a macro).  Other replacement texts are not followed. -/
def coutStream (c : Config) : Option Stream :=
  match c "cout" with
  | none => some Stream.out
  | some r => if r = "cerr" ∧ c "cerr" = none then some Stream.err else none

/-- The program as built and run under configuration `c`, the identifiers of
the header being `iostream`.  When `c` defines one of `ownTokens` or an
identifier of the header other than `cout`, the translation unit is a
different text and is not followed: `none`.  Otherwise the fifteen statements
write what `main` computes to the stream that `std::cout` denotes after the
rescan, and the process exits with the value `main` returns. -/
def build (iostream : List String) (c : Config) : Option Outcome :=
  if (ownTokens ++ iostream.filter (fun t => t != "cout")).any c.defined then none
  else
    match coutStream c with
    | none => none
    | some Stream.out =>
      some { stdout := (main c).stdout, stderr := "", exitCode := (main c).exitCode }
    | some Stream.err =>
      some { stdout := "", stderr := (main c).stdout, exitCode := (main c).exitCode }

end PlusOs

namespace PlusOs

set_option maxRecDepth 20000

/-! ## Shape of the output -/

theorem data_endl (cout : String) : (endl cout).data = cout.data ++ ['\n'] := by
  simp [endl]

theorem ifdef_block (c : Config) (n cout : String) :
    (if c.defined n then PRINT_SET n cout else PRINT_UNSET n cout)
      = cout ++ (report c n ++ "\n") := by
  unfold report PRINT_SET PRINT_UNSET endl
  cases c.defined n <;> simp [String.append_assoc]

theorem main_stdout (c : Config) : (main c).stdout = unlines (symbols.map (report c)) := by
  simp only [main, ifdef_block]
  simp [unlines, symbols, String.join, String.append_assoc]

theorem main_exitCode (c : Config) : (main c).exitCode = 0 := rfl

/-! ## Splitting a text into lines -/

theorem linesAux_line (l : List Char) (hl : '\n' ∉ l) (cur rest : List Char) :
    linesAux cur (l ++ '\n' :: rest) = (cur ++ l) :: linesAux [] rest := by
  induction l generalizing cur with
  | nil => simp [linesAux]
  | cons a l ih =>
    have ha : a ≠ '\n' := fun h => hl (by simp [h])
    have hl2 : '\n' ∉ l := fun h => hl (by simp [h])
    simp [linesAux, ha, ih hl2]

theorem data_unlines_cons (l : String) (ls : List String) :
    (unlines (l :: ls)).data = l.data ++ '\n' :: (unlines ls).data := by
  simp [unlines]

theorem lines_unlines (ls : List String) (h : ∀ l ∈ ls, '\n' ∉ l.data) :
    lines (unlines ls) = ls := by
  induction ls with
  | nil => simp [lines, unlines, String.join, linesAux]
  | cons l ls ih =>
    have h1 : '\n' ∉ l.data := h l (by simp)
    have h2 : ∀ l ∈ ls, '\n' ∉ l.data := fun x hx => h x (by simp [hx])
    have ih2 := ih h2
    unfold lines at ih2 ⊢
    rw [data_unlines_cons, linesAux_line l.data h1]
    simp [ih2]

/-! ## Facts about the fifteen names -/

theorem symbols_nodup : symbols.Nodup := by decide

theorem symbols_length : symbols.length = 15 := rfl

theorem symbols_no_newline :
    ∀ n ∈ symbols, '\n' ∉ (n ++ " set").data ∧ '\n' ∉ (n ++ " unset").data := by decide

theorem symbols_unset_ne_set :
    ∀ n ∈ symbols, ∀ m ∈ symbols, n ++ " unset" ≠ m ++ " set" := by decide

theorem append_right_cancel {a b s : String} (h : a ++ s = b ++ s) : a = b := by
  have h2 := congrArg String.data h
  simp only [String.data_append] at h2
  exact String.ext (List.append_cancel_right h2)

theorem set_ne_unset (n : String) : n ++ " set" ≠ n ++ " unset" := by
  intro h
  have h2 := congrArg String.data h
  simp only [String.data_append] at h2
  exact absurd (List.append_cancel_left h2) (by decide)

theorem report_no_newline (c : Config) : ∀ l ∈ symbols.map (report c), '\n' ∉ l.data := by
  intro l hl
  obtain ⟨n, hn, rfl⟩ := List.mem_map.1 hl
  unfold report
  cases c.defined n
  · simpa using (symbols_no_newline n hn).2
  · simpa using (symbols_no_newline n hn).1

/-- The output lines are the reports of the fifteen symbols, in order. -/
theorem outputLines_eq (c : Config) : outputLines c = symbols.map (report c) := by
  unfold outputLines
  rw [main_stdout, lines_unlines _ (report_no_newline c)]

theorem report_eq_set_iff (c : Config) {n N : String} (hn : n ∈ symbols) (hN : N ∈ symbols) :
    report c n = N ++ " set" ↔ n = N ∧ c.defined n = true := by
  unfold report
  cases h : c.defined n
  · simpa using symbols_unset_ne_set n hn N hN
  · simp only [if_true, and_true]
    exact ⟨append_right_cancel, fun h => h ▸ rfl⟩

theorem report_eq_unset_iff (c : Config) {n N : String} (hn : n ∈ symbols) (hN : N ∈ symbols) :
    report c n = N ++ " unset" ↔ n = N ∧ c.defined n = false := by
  unfold report
  cases h : c.defined n
  · simp only [Bool.false_eq_true, if_false, and_true]
    exact ⟨append_right_cancel, fun h => h ▸ rfl⟩
  · simpa using fun h => symbols_unset_ne_set N hN n hn h.symm

theorem count_reports (c : Config) (N target : String) (p : Bool) (hN : N ∈ symbols)
    (h : ∀ n ∈ symbols, report c n = target ↔ n = N ∧ p = true) :
    (symbols.map (report c)).count target = if p then 1 else 0 := by
  rw [List.count, List.countP_map]
  cases p
  · simp only [Bool.false_eq_true, and_false, iff_false] at h
    simp only [Bool.false_eq_true, if_false, List.countP_eq_zero]
    intro n hn
    simpa using h n hn
  · simp only [and_true] at h
    have : List.countP ((fun x => x == target) ∘ report c) symbols
        = List.countP (fun x => x == N) symbols := by
      apply List.countP_congr
      intro n hn
      simp [h n hn]
    rw [this]
    simpa [List.count] using List.count_eq_one_of_mem symbols_nodup hN

/-! ## C1: each symbol is reported by exactly one line -/

/-- C1: for every configuration and every symbol `N` of the fifteen, if `N`
is defined then the line `"N set"` occurs exactly once among the output lines
and `"N unset"` does not occur; if `N` is not defined then `"N unset"` occurs
exactly once and `"N set"` does not occur. -/
theorem defined_symbol_reported_once (c : Config) (N : String) (hN : N ∈ symbols) :
    (c.defined N = true →
      (outputLines c).count (N ++ " set") = 1 ∧ (outputLines c).count (N ++ " unset") = 0) ∧
    (c.defined N = false →
      (outputLines c).count (N ++ " unset") = 1 ∧ (outputLines c).count (N ++ " set") = 0) := by
  have hset := count_reports c N (N ++ " set") (c.defined N) hN (fun n hn => by
    rw [report_eq_set_iff c hn hN]
    constructor
    · rintro ⟨rfl, h⟩; exact ⟨rfl, h⟩
    · rintro ⟨rfl, h⟩; exact ⟨rfl, h⟩)
  have hunset := count_reports c N (N ++ " unset") (!c.defined N) hN (fun n hn => by
    rw [report_eq_unset_iff c hn hN]
    constructor
    · rintro ⟨rfl, h⟩; exact ⟨rfl, by simp [h]⟩
    · rintro ⟨rfl, h⟩; exact ⟨rfl, by simpa using h⟩)
  rw [outputLines_eq]
  constructor
  · intro h
    rw [hset, hunset, h]
    exact ⟨rfl, rfl⟩
  · intro h
    rw [hset, hunset, h]
    exact ⟨rfl, rfl⟩

/-- Instance of C1 at the configuration defining only `VALUE2` and
`BOOL_VAR_DEFAULT`: the defined symbol `BOOL_VAR_DEFAULT` has its `set` line
once and no `unset` line, and the undefined symbol `DEFAULT` has its `unset`
line once and no `set` line. -/
theorem defined_symbol_reported_once_witness :
    ("BOOL_VAR_DEFAULT" ∈ symbols ∧
      (configOf ["VALUE2", "BOOL_VAR_DEFAULT"]).defined "BOOL_VAR_DEFAULT" = true ∧
      (outputLines (configOf ["VALUE2", "BOOL_VAR_DEFAULT"])).count
        ("BOOL_VAR_DEFAULT" ++ " set") = 1 ∧
      (outputLines (configOf ["VALUE2", "BOOL_VAR_DEFAULT"])).count
        ("BOOL_VAR_DEFAULT" ++ " unset") = 0) ∧
    ("DEFAULT" ∈ symbols ∧
      (configOf ["VALUE2", "BOOL_VAR_DEFAULT"]).defined "DEFAULT" = false ∧
      (outputLines (configOf ["VALUE2", "BOOL_VAR_DEFAULT"])).count
        ("DEFAULT" ++ " unset") = 1 ∧
      (outputLines (configOf ["VALUE2", "BOOL_VAR_DEFAULT"])).count
        ("DEFAULT" ++ " set") = 0) :=
  ⟨⟨by decide, by decide,
    (defined_symbol_reported_once (configOf ["VALUE2", "BOOL_VAR_DEFAULT"])
      "BOOL_VAR_DEFAULT" (by decide)).1 (by decide)⟩,
   ⟨by decide, by decide,
    (defined_symbol_reported_once (configOf ["VALUE2", "BOOL_VAR_DEFAULT"])
      "DEFAULT" (by decide)).2 (by decide)⟩⟩

/-! ## C2: fifteen lines, in the fixed order, in the fixed format -/

/-- C2: for every configuration the output is exactly fifteen lines, each
terminated by a newline, and the `i`-th line is the `i`-th symbol of the fixed
order followed by one space and then `set` or `unset`. -/
theorem output_is_fifteen_ordered_lines (c : Config) :
    (outputLines c).length = 15 ∧
    (main c).stdout = unlines (outputLines c) ∧
    (∀ l ∈ outputLines c, '\n' ∉ l.data) ∧
    ∀ i : Fin 15, ∃ n, symbols[i.val]? = some n ∧
      ((outputLines c)[i.val]? = some (n ++ " " ++ "set") ∨
       (outputLines c)[i.val]? = some (n ++ " " ++ "unset")) := by
  refine ⟨by simp [outputLines_eq, symbols_length], ?_, ?_, ?_⟩
  · rw [outputLines_eq, main_stdout]
  · rw [outputLines_eq]; exact report_no_newline c
  · intro i
    have hi : i.val < symbols.length := by rw [symbols_length]; exact i.isLt
    refine ⟨symbols[i.val], List.getElem?_eq_getElem hi, ?_⟩
    rw [outputLines_eq, List.getElem?_map, List.getElem?_eq_getElem hi]
    simp only [Option.map_some', report, String.append_assoc]
    cases c.defined symbols[i.val]
    · right; rfl
    · left; rfl

/-! ## C3: the program always returns 0 -/

/-- C3: for every configuration `main` returns exit code 0, having written
all fifteen lines; `main` is a total function with no failure result. -/
theorem main_returns_zero (c : Config) :
    (main c).exitCode = 0 ∧ (outputLines c).length = symbols.length ∧
      (main c).stdout = unlines (symbols.map (report c)) :=
  ⟨main_exitCode c, by simp [outputLines_eq], main_stdout c⟩

/-! ## C4: the checks are independent -/

theorem line_at_symbol (c : Config) {N : String} (hN : N ∈ symbols) :
    (outputLines c)[symbols.indexOf N]? = some (report c N) := by
  rw [outputLines_eq, List.getElem?_map, List.getElem?_indexOf hN]
  rfl

theorem report_congr {c₁ c₂ : Config} {N : String} (h : c₁.defined N = c₂.defined N) :
    report c₁ N = report c₂ N := by
  unfold report
  rw [h]

theorem report_differs {c₁ c₂ : Config} {N : String} (h : c₁.defined N ≠ c₂.defined N) :
    report c₁ N ≠ report c₂ N := by
  unfold report
  cases h1 : c₁.defined N <;> cases h2 : c₂.defined N
  · exact absurd (h1.trans h2.symm) h
  · simpa using (set_ne_unset N).symm
  · simpa using set_ne_unset N
  · exact absurd (h1.trans h2.symm) h

/-- C4: for every symbol `N` of the fifteen and every two configurations, if
the two agree on whether `N` is defined then the output line at the position
of `N` is the same in both runs, whatever they say about the other symbols;
and if they differ on `N` and agree on the other fourteen, then the two
outputs differ in exactly one line, the one at the position of `N`. -/
theorem checks_are_independent (N : String) (hN : N ∈ symbols) (c₁ c₂ : Config) :
    (c₁.defined N = c₂.defined N →
      (outputLines c₁)[symbols.indexOf N]? = (outputLines c₂)[symbols.indexOf N]? ∧
      (outputLines c₁)[symbols.indexOf N]? ≠ none) ∧
    (c₁.defined N ≠ c₂.defined N →
      (∀ M ∈ symbols, M ≠ N → c₁.defined M = c₂.defined M) →
      ∀ j : Nat, (outputLines c₁)[j]? ≠ (outputLines c₂)[j]? ↔ j = symbols.indexOf N) := by
  constructor
  · intro h
    rw [line_at_symbol c₁ hN, line_at_symbol c₂ hN, report_congr h]
    exact ⟨rfl, by simp⟩
  · intro hne hothers j
    constructor
    · intro hj
      by_cases hlt : j < symbols.length
      · by_cases hM : symbols[j] = N
        · rw [← hM, List.indexOf_getElem symbols_nodup j hlt]
        · exfalso
          apply hj
          rw [outputLines_eq, outputLines_eq, List.getElem?_map, List.getElem?_map,
            List.getElem?_eq_getElem hlt]
          simp only [Option.map_some']
          rw [report_congr (hothers _ (List.getElem_mem hlt) hM)]
      · exfalso
        apply hj
        rw [outputLines_eq, outputLines_eq, List.getElem?_map, List.getElem?_map,
          List.getElem?_eq_none (Nat.le_of_not_lt hlt)]
        rfl
    · rintro rfl
      rw [line_at_symbol c₁ hN, line_at_symbol c₂ hN]
      intro h
      exact report_differs hne (Option.some.inj h)

/-- Instance of C4 for `DEFAULT`: two configurations that both leave
`DEFAULT` undefined and differ elsewhere print the same line for it, and
defining `DEFAULT` alone changes only line 6 (counting from 0). -/
theorem checks_are_independent_witness :
    "DEFAULT" ∈ symbols ∧
    ((outputLines (configOf ["VALUE1"]))[symbols.indexOf "DEFAULT"]?
        = (outputLines (configOf ["VALUE2", "BOOL_VAR"]))[symbols.indexOf "DEFAULT"]? ∧
      (outputLines (configOf ["VALUE1"]))[symbols.indexOf "DEFAULT"]? ≠ none) ∧
    (∀ j : Nat, (outputLines (configOf ["VALUE1"]))[j]?
        ≠ (outputLines (configOf ["VALUE1", "DEFAULT"]))[j]? ↔ j = symbols.indexOf "DEFAULT") :=
  ⟨by decide,
   (checks_are_independent "DEFAULT" (by decide)
      (configOf ["VALUE1"]) (configOf ["VALUE2", "BOOL_VAR"])).1 (by decide),
   (checks_are_independent "DEFAULT" (by decide)
      (configOf ["VALUE1"]) (configOf ["VALUE1", "DEFAULT"])).2 (by decide) (by decide)⟩

/-! ## C5: only definedness matters, for names that do not occur in the translation unit -/

theorem main_eq (c : Config) :
    main c = { stdout := unlines (symbols.map (report c)), exitCode := 0 } := by
  have h1 := main_stdout c
  have h2 := main_exitCode c
  cases hm : main c with
  | mk out code =>
    rw [hm] at h1 h2
    simp only at h1 h2
    rw [h1, h2]

theorem main_congr {c₁ c₂ : Config} (h : ∀ N ∈ symbols, c₁.defined N = c₂.defined N) :
    main c₁ = main c₂ := by
  rw [main_eq, main_eq]
  congr 2
  exact List.map_congr_left (fun N hN => report_congr (h N hN))

theorem build_of_untouched (iostream : List String) (c : Config)
    (h : ∀ t ∈ unitIdentifiers iostream, c t = none) :
    build iostream c
      = some { stdout := (main c).stdout, stderr := "", exitCode := (main c).exitCode } := by
  have hany : (ownTokens ++ iostream.filter (fun t => t != "cout")).any c.defined = false := by
    rw [List.any_eq_false]
    intro t ht
    have hmem : t ∈ unitIdentifiers iostream := by
      rcases List.mem_append.1 ht with h1 | h2
      · exact List.mem_append_left _ h1
      · exact List.mem_append_right _ (List.mem_cons_of_mem _ (List.mem_of_mem_filter h2))
    simp [Config.defined, h t hmem]
  have hcout : c "cout" = none := h "cout" (by simp [unitIdentifiers])
  simp [build, hany, coutStream, hcout]

theorem update_untouched (iostream : List String) (c : Config) (M : String) (v : Option String)
    (hM : M ∉ unitIdentifiers iostream) (h : ∀ t ∈ unitIdentifiers iostream, c t = none) :
    ∀ t ∈ unitIdentifiers iostream, Function.update c M v t = none := by
  intro t ht
  have hne : t ≠ M := fun e => hM (e ▸ ht)
  rw [Function.update_noteq hne]
  exact h t ht

theorem build_of_cout_as_cerr (iostream : List String) (c : Config)
    (hcout : c "cout" = some "cerr") (hcerr : c "cerr" = none)
    (h : ∀ t, t ≠ "cout" → c t = none) :
    build iostream c
      = some { stdout := "", stderr := (main c).stdout, exitCode := (main c).exitCode } := by
  have hany : (ownTokens ++ iostream.filter (fun t => t != "cout")).any c.defined = false := by
    rw [List.any_eq_false]
    intro t ht
    have hne : t ≠ "cout" := by
      rcases List.mem_append.1 ht with h1 | h2
      · intro e
        rw [e] at h1
        exact absurd h1 (by decide)
      · simpa using (List.mem_filter.1 h2).2
    simp [Config.defined, h t hne]
  simp [build, hany, coutStream, hcout, hcerr]

/-- C5 as stated fails: the configuration that defines nothing and the one
that defines only `cout`, as `cerr`, have the same defined symbols among the
fifteen (none), and `cout` is not one of the fifteen; yet, whatever the
header contains, the first build prints the fifteen `unset` lines on standard
output and the second prints nothing there (the lines go to standard
error). -/
theorem cout_defined_as_cerr_empties_stdout :
    (∀ N ∈ symbols, ((configOf []) N).isSome
        = ((fun n => if n = "cout" then some "cerr" else none : Config) N).isSome) ∧
    "cout" ∉ symbols ∧
    ∀ iostream : List String,
      (build iostream (configOf [])).map Outcome.stdout
        = some (unlines (symbols.map (· ++ " unset"))) ∧
      (build iostream (fun n => if n = "cout" then some "cerr" else none)).map Outcome.stdout
        = some "" ∧
      (build iostream (fun n => if n = "cout" then some "cerr" else none)).map Outcome.stderr
        = some (unlines (symbols.map (· ++ " unset"))) := by
  refine ⟨by decide, by decide, fun iostream => ⟨?_, ?_, ?_⟩⟩
  · rw [build_of_untouched iostream (configOf []) (fun t _ => rfl)]
    exact congrArg some (by decide)
  · rw [build_of_cout_as_cerr iostream _ (by decide) (by decide)
      (fun t ht => by simp [ht])]
    rfl
  · rw [build_of_cout_as_cerr iostream _ (by decide) (by decide)
      (fun t ht => by simp [ht])]
    exact congrArg some (by decide)

/-- C5, amended: two configurations (partial maps from names to replacement
text) that define no identifier occurring in the translation unit outside the
fifteen `#ifdef` blocks, and that have the same defined symbols among the
fifteen, build to the same standard output, standard error and exit code,
namely the output of `main` and exit code 0, whatever the replacement texts
are; defining a further name that is neither one of the fifteen nor an
identifier of the translation unit changes nothing; and the line for a
defined symbol `N` with replacement text `r` is `"N set"`, spelled with the
name `N` itself and not with `r`. -/
theorem build_depends_only_on_definedness (iostream : List String) (c₁ c₂ : Config)
    (h₁ : ∀ t ∈ unitIdentifiers iostream, c₁ t = none)
    (h₂ : ∀ t ∈ unitIdentifiers iostream, c₂ t = none)
    (h : ∀ N ∈ symbols, (c₁ N).isSome = (c₂ N).isSome) :
    build iostream c₁ = build iostream c₂ ∧
    build iostream c₁ = some { stdout := (main c₁).stdout, stderr := "", exitCode := 0 } ∧
    (∀ (M : String) (v : Option String), M ∉ symbols → M ∉ unitIdentifiers iostream →
      build iostream (Function.update c₁ M v) = build iostream c₁) ∧
    (∀ N ∈ symbols, ∀ r : String, c₁ N = some r →
      (lines (main c₁).stdout)[symbols.indexOf N]? = some (N ++ " set") ∧
      (lines (main c₂).stdout)[symbols.indexOf N]? = some (N ++ " set") ∧
      (r ≠ N → (lines (main c₁).stdout)[symbols.indexOf N]? ≠ some (r ++ " set"))) := by
  refine ⟨?_, ?_, ?_, ?_⟩
  · rw [build_of_untouched iostream c₁ h₁, build_of_untouched iostream c₂ h₂, main_congr h]
  · rw [build_of_untouched iostream c₁ h₁, main_exitCode]
  · intro M v hM hMu
    rw [build_of_untouched iostream c₁ h₁,
      build_of_untouched iostream _ (update_untouched iostream c₁ M v hMu h₁)]
    have hm : main (Function.update c₁ M v) = main c₁ := by
      apply main_congr
      intro N hN
      have hne : N ≠ M := fun e => hM (e ▸ hN)
      simp [Config.defined, Function.update_noteq hne]
    rw [hm]
  · intro N hN r hr
    have hd1 : c₁.defined N = true := by simp [Config.defined, hr]
    have hd2 : c₂.defined N = true := by
      have := h N hN
      simpa [Config.defined, hr] using this.symm
    have e1 : report c₁ N = N ++ " set" := by simp [report, hd1]
    have e2 : report c₂ N = N ++ " set" := by simp [report, hd2]
    have l1 := line_at_symbol c₁ hN
    have l2 := line_at_symbol c₂ hN
    unfold outputLines at l1 l2
    rw [l1, l2, e1, e2]
    refine ⟨rfl, rfl, ?_⟩
    intro hrN heq
    exact hrN (append_right_cancel (Option.some.inj heq)).symm

/-- Instance of C5, amended, with `std`, `cout`, `cerr`, `endl`, `ostream` as
identifiers of the header: `VALUE1` defined as `1` together with an unrelated
macro `OTHER`, against `VALUE1` defined as `VALUE2` alone. -/
theorem build_depends_only_on_definedness_witness :
    build ["std", "cout", "cerr", "endl", "ostream"]
        (fun n => if n = "VALUE1" then some "1" else if n = "OTHER" then some "x" else none)
      = build ["std", "cout", "cerr", "endl", "ostream"]
        (fun n => if n = "VALUE1" then some "VALUE2" else none) ∧
    build ["std", "cout", "cerr", "endl", "ostream"]
        (fun n => if n = "VALUE1" then some "1" else if n = "OTHER" then some "x" else none)
      = some { stdout := (main (fun n => if n = "VALUE1" then some "1"
                  else if n = "OTHER" then some "x" else none)).stdout,
               stderr := "", exitCode := 0 } :=
  ⟨(build_depends_only_on_definedness ["std", "cout", "cerr", "endl", "ostream"]
      (fun n => if n = "VALUE1" then some "1" else if n = "OTHER" then some "x" else none)
      (fun n => if n = "VALUE1" then some "VALUE2" else none)
      (by decide) (by decide) (by decide)).1,
   (build_depends_only_on_definedness ["std", "cout", "cerr", "endl", "ostream"]
      (fun n => if n = "VALUE1" then some "1" else if n = "OTHER" then some "x" else none)
      (fun n => if n = "VALUE1" then some "VALUE2" else none)
      (by decide) (by decide) (by decide)).2.1⟩

/-! ## C6: the output determines the configuration -/

theorem set_line_mem_iff (c : Config) {N : String} (hN : N ∈ symbols) :
    (N ++ " set") ∈ outputLines c ↔ c.defined N = true := by
  rw [outputLines_eq, List.mem_map]
  constructor
  · rintro ⟨n, hn, h⟩
    obtain ⟨rfl, hd⟩ := (report_eq_set_iff c hn hN).1 h
    exact hd
  · intro hd
    exact ⟨N, hN, (report_eq_set_iff c hN hN).2 ⟨rfl, hd⟩⟩

theorem recover_stdout (c : Config) : recover (main c).stdout = definedSymbols c := by
  unfold recover definedSymbols
  apply List.filter_congr
  intro N hN
  have h := set_line_mem_iff c hN
  unfold outputLines at h
  cases hd : c.defined N
  · simpa [hd] using h
  · simpa [hd] using h

theorem defined_of_stdout_eq {c₁ c₂ : Config} (h : (main c₁).stdout = (main c₂).stdout)
    {N : String} (hN : N ∈ symbols) : c₁.defined N = c₂.defined N := by
  have h1 := set_line_mem_iff c₁ hN
  have h2 := set_line_mem_iff c₂ hN
  unfold outputLines at h1 h2
  rw [h] at h1
  have : c₁.defined N = true ↔ c₂.defined N = true := h1.symm.trans h2
  cases hd1 : c₁.defined N <;> cases hd2 : c₂.defined N <;> simp [hd1, hd2] at this ⊢

theorem defined_configOfSet (S : Finset String) (n : String) :
    (configOfSet S).defined n = decide (n ∈ S) := by
  unfold Config.defined configOfSet
  by_cases h : n ∈ S <;> simp [h]

/-- C6: two configurations with the same output text agree on the
definedness of every one of the fifteen symbols; the defined symbols are read
back from the output by `recover`; and the 2^15 configurations over the
fifteen symbols give 2^15 different outputs. -/
theorem output_determines_configuration (c₁ c₂ : Config) :
    ((main c₁).stdout = (main c₂).stdout → ∀ N ∈ symbols, c₁.defined N = c₂.defined N) ∧
    recover (main c₁).stdout = definedSymbols c₁ ∧
    (Finset.image (fun S => (main (configOfSet S)).stdout) symbols.toFinset.powerset).card
      = 2 ^ 15 := by
  refine ⟨fun h N hN => defined_of_stdout_eq h hN, recover_stdout c₁, ?_⟩
  rw [Finset.card_image_of_injOn, Finset.card_powerset, List.toFinset_card_of_nodup symbols_nodup,
    symbols_length]
  intro S hS T hT h
  have hS2 : S ⊆ symbols.toFinset := Finset.mem_powerset.1 hS
  have hT2 : T ⊆ symbols.toFinset := Finset.mem_powerset.1 hT
  ext n
  by_cases hn : n ∈ symbols
  · have := defined_of_stdout_eq h hn
    rw [defined_configOfSet, defined_configOfSet] at this
    simpa using this
  · have hn2 : n ∉ symbols.toFinset := by simpa using hn
    exact ⟨fun h => absurd (hS2 h) hn2, fun h => absurd (hT2 h) hn2⟩

/-- Instance of C6: `VALUE1` defined to two different replacement texts gives
the same output, and the two configurations agree on every symbol. -/
theorem output_determines_configuration_witness :
    (main (fun n => if n = "VALUE1" then some "1" else none)).stdout
      = (main (fun n => if n = "VALUE1" then some "2" else none)).stdout ∧
    ∀ N ∈ symbols, Config.defined (fun n => if n = "VALUE1" then some "1" else none) N
      = Config.defined (fun n => if n = "VALUE1" then some "2" else none) N :=
  ⟨by decide,
   (output_determines_configuration (fun n => if n = "VALUE1" then some "1" else none)
      (fun n => if n = "VALUE1" then some "2" else none)).1 (by decide)⟩

/-! ## C7: whole lines are unambiguous, substrings are not -/

/-- C7: the thirty possible output lines are pairwise distinct, yet with
`BOOL_VAR_DEFAULT` defined and `DEFAULT` not defined the output text contains
the characters `DEFAULT set`, inside the line `BOOL_VAR_DEFAULT set`, although
`DEFAULT set` is not one of its lines. -/
theorem lines_distinct_but_substrings_overlap :
    possibleLines.Nodup ∧ possibleLines.length = 30 ∧
    ∃ c : Config, c.defined "DEFAULT" = false ∧ c.defined "BOOL_VAR_DEFAULT" = true ∧
      "DEFAULT set".data <:+: (main c).stdout.data ∧
      "DEFAULT set".data <:+: "BOOL_VAR_DEFAULT set".data ∧
      "BOOL_VAR_DEFAULT set" ∈ outputLines c ∧
      "DEFAULT set" ∉ outputLines c ∧
      "DEFAULT unset" ∈ outputLines c := by
  refine ⟨by decide, rfl, configOf ["BOOL_VAR_DEFAULT"], by decide, by decide, ?_, ?_,
    by decide, by decide, by decide⟩
  · decide
  · decide

end PlusOs
